import Mathlib

/-!
Verification of the `arvora_nix` command-line utility (src/src/main.rs).

The program collects its command-line arguments, extracts the first user
argument as a path string, canonicalizes it, and reads the file's bytes,
printing debug renderings along the way.  We embed the program as a pure
function over an abstract environment (`World`) supplying the outcomes of
the two filesystem operations the program performs: `Path::canonicalize`
and `fs::read`.  The embedding records, for a given environment and
argument list, the sequence of items printed, the trace of filesystem
operations performed, and the process outcome (a normal exit with a code,
or a runtime crash: an out-of-bounds index or a failed `unwrap`, both of
which terminate a Rust process with a non-zero status).
-/

namespace ArvoraNix

/-- Bitwise complement of a 64-bit `usize` value, as `!` computes on Rust
integers.  For `n < 2^64` the complement is `2^64 - 1 - n`.  The source's
guard `!args.len() > 1` parses as `(!args.len()) > 1` because unary `!`
binds tighter than `>`. -/
def usizeNot (n : Nat) : Nat := 2 ^ 64 - 1 - n

/-- Failure modes of path canonicalization (`Path::canonicalize`). -/
inductive CanonError where
  | pathNotFound
  | resolutionFailure
deriving DecidableEq, Repr

/-- Failure modes of whole-file reading (`fs::read`). -/
inductive ReadError where
  | fileNotFound
  | permissionDenied
  | readFailure
  | notAFile
deriving DecidableEq, Repr

/-- The filesystem environment a run executes against: the result of
canonicalizing a path string, and the result of reading the bytes at a
path.  `canonicalize p = .ok q` means `q` is the canonical absolute path
(symlinks resolved, `.`/`..` segments removed) of the entry named by `p`
from the process's working directory; `readBytes q = .ok bs` means the
entry at `q` is a readable regular file whose complete contents are the
byte list `bs` (so its size in bytes is `bs.length`). -/
structure World where
  canonicalize : String → Except CanonError String
  readBytes : String → Except ReadError (List Nat)

/-- One item printed by the program, in order of appearance in the source:
the no-arguments diagnostic (line 16), the debug rendering of the raw path
argument (line 25), the "Absolute path:" line with the debug rendering of
the canonicalized path (line 28), and the debug rendering of the file's
bytes (line 8). -/
inductive OutItem where
  | noArgsMsg
  | rawPath (s : String)
  | absPathMsg (s : String)
  | fileData (bs : List Nat)
deriving DecidableEq, Repr

/-- A filesystem operation: a metadata/symlink query made by path
resolution, a read of a file's contents, or a mutation of the filesystem.
The embedding records every operation the program performs; the program
never issues a `write`. -/
inductive FSOp where
  | statQuery (p : String)
  | contentRead (p : String)
  | write (p : String)
deriving DecidableEq, Repr

/-- Whether a filesystem operation reads a file's contents. -/
def FSOp.isContentRead : FSOp → Bool
  | .contentRead _ => true
  | _ => false

/-- Whether a filesystem operation mutates the filesystem. -/
def FSOp.isWrite : FSOp → Bool
  | .write _ => true
  | _ => false

/-- How a run can crash: indexing out of bounds (`user_args[0]` on an
empty vector, line 22) or unwrapping an `Err` (`canonicalize().unwrap()`,
line 27).  Either aborts the Rust process with a non-zero status. -/
inductive CrashKind where
  | indexOutOfBounds
  | unwrapFailed
deriving DecidableEq, Repr

/-- Outcome of a run: a normal exit with the given code, or a crash. -/
inductive Outcome where
  | normal (exitCode : Nat)
  | crashed (k : CrashKind)
deriving DecidableEq, Repr

/-- The process exit status: the code of a normal exit, or 101 (the Rust
runtime's status for an aborted process) after a crash. -/
def Outcome.exitStatus : Outcome → Nat
  | .normal c => c
  | .crashed _ => 101

/-- The observable result of one run: printed output, filesystem trace,
and process outcome. -/
structure RunResult where
  output : List OutItem
  trace : List FSOp
  outcome : Outcome
deriving DecidableEq, Repr

/-- Embedding of `goblin_runner` (main.rs lines 6-11): read the file at
`file_path`, print the bytes on success, and return `Ok(())`; on failure
the `?` operator returns the error without printing anything.  The result
records the items printed, the filesystem operations performed, and the
returned `Result`. -/
def goblin_runner (w : World) (file_path : String) :
    List OutItem × List FSOp × Except ReadError Unit :=
  match w.readBytes file_path with
  | .ok file_data => ([.fileData file_data], [.contentRead file_path], .ok ())
  | .error e => ([], [.contentRead file_path], .error e)

/-- Embedding of `main` (main.rs lines 13-31).  `args` is the full
argument vector including the program name at index 0.
Line 15 tests `!args.len() > 1`, i.e. `(usizeNot args.length) > 1`, and
line 16 prints the no-arguments message when it holds; execution then
falls through unconditionally.  Line 20 drops the program name, line 22
indexes `user_args[0]` (crashing when the remainder is empty), line 25
prints the raw path, line 27 unwraps the canonicalization result
(crashing on failure, after the stat/readlink query), line 28 prints the
absolute path, and line 30 calls `goblin_runner` and discards its result,
so `main` returns normally (exit 0) whatever the read's outcome. -/
def rustMain (w : World) (args : List String) : RunResult :=
  let out0 : List OutItem :=
    if usizeNot args.length > 1 then [.noArgsMsg] else []
  let user_args := args.drop 1
  match user_args with
  | [] => ⟨out0, [], .crashed .indexOutOfBounds⟩
  | file :: _ =>
    let out1 := out0 ++ [.rawPath file]
    match w.canonicalize file with
    | .error _ => ⟨out1, [.statQuery file], .crashed .unwrapFailed⟩
    | .ok absolute_path =>
      let out2 := out1 ++ [.absPathMsg absolute_path]
      let r := goblin_runner w absolute_path
      ⟨out2 ++ r.1, .statQuery file :: r.2.1, .normal 0⟩

/-- An environment with no resolvable entries at all. -/
def noEntryWorld : World where
  canonicalize := fun _ => .error .pathNotFound
  readBytes := fun _ => .error .fileNotFound

/-- An environment where resolution succeeds but the subsequent read
fails with an I/O error. -/
def vanishWorld : World where
  canonicalize := fun _ => .ok "/abs/data.bin"
  readBytes := fun _ => .error .readFailure

/-- An environment where the supplied path resolves to a directory, so
the read fails with the not-a-file error. -/
def dirWorld : World where
  canonicalize := fun _ => .ok "/abs/dir"
  readBytes := fun _ => .error .notAFile

/-- An environment with one readable regular file at `/abs/data.bin`
holding the two bytes 104, 105; every path canonicalizes to it. -/
def okWorld : World where
  canonicalize := fun _ => .ok "/abs/data.bin"
  readBytes := fun p =>
    if p = "/abs/data.bin" then .ok [104, 105] else .error .fileNotFound

/-- C1: with an empty user-argument list the program does print the
missing-argument diagnostic first and touches no filesystem state, but it
then goes on to index the empty remainder (`user_args[0]`) and crashes
with an out-of-bounds fault instead of exiting through a handled branch —
exactly the indexing fault the spec requires the component to avoid. -/
theorem C1_empty_args_index_fault (w : World) :
    rustMain w ["prog"] = ⟨[.noArgsMsg], [], .crashed .indexOutOfBounds⟩ := by
  simp [rustMain, usizeNot]

/-- C2: when canonicalization fails (the path names no filesystem entry),
the program crashes through `unwrap()` on the `Err` rather than surfacing
a recoverable failure with a diagnostic: no diagnostic item identifying
the failure is printed after the raw-path echo, and no content read is
ever attempted (the trace holds only the resolution query). -/
theorem C2_canonicalize_failure_crashes :
    rustMain noEntryWorld ["prog", "/no/such/file"] =
      ⟨[.noArgsMsg, .rawPath "/no/such/file"], [.statQuery "/no/such/file"],
       .crashed .unwrapFailed⟩ := by
  decide

/-- C3: when the file read fails after successful resolution, the
discarded result of `goblin_runner` means the error is silently
swallowed: the process exits normally with status 0 and the output
carries no diagnostic of any kind, contradicting the required non-zero
propagation. -/
theorem C3_read_failure_silently_swallowed :
    rustMain vanishWorld ["prog", "data.bin"] =
      ⟨[.noArgsMsg, .rawPath "data.bin", .absPathMsg "/abs/data.bin"],
       [.statQuery "data.bin", .contentRead "/abs/data.bin"], .normal 0⟩ ∧
    (rustMain vanishWorld ["prog", "data.bin"]).outcome.exitStatus = 0 := by
  constructor <;> decide

/-- C4: for an existing regular file the reported byte sequence is exactly
the file's contents `bs` — byte-for-byte identical, hence of length equal
to the file's size `bs.length` at the moment of reading. -/
theorem C4_reported_bytes_exact (w : World) (p q : String) (bs : List Nat)
    (hc : w.canonicalize p = .ok q) (hr : w.readBytes q = .ok bs) :
    (rustMain w ["prog", p]).output =
      [.noArgsMsg, .rawPath p, .absPathMsg q, .fileData bs] ∧
    ∀ ds, OutItem.fileData ds ∈ (rustMain w ["prog", p]).output →
      ds = bs ∧ ds.length = bs.length := by
  have hout : (rustMain w ["prog", p]).output =
      [.noArgsMsg, .rawPath p, .absPathMsg q, .fileData bs] := by
    simp [rustMain, goblin_runner, usizeNot, hc, hr]
  refine ⟨hout, ?_⟩
  intro ds hmem
  rw [hout] at hmem
  simp at hmem
  exact ⟨hmem, by rw [hmem]⟩

/-- Witness for C4 at a concrete environment and argument. -/
theorem C4_reported_bytes_exact_witness :
    (rustMain okWorld ["prog", "data.bin"]).output =
      [.noArgsMsg, .rawPath "data.bin", .absPathMsg "/abs/data.bin",
       .fileData [104, 105]] ∧
    ∀ ds, OutItem.fileData ds ∈ (rustMain okWorld ["prog", "data.bin"]).output →
      ds = [104, 105] ∧ ds.length = ([104, 105] : List Nat).length :=
  C4_reported_bytes_exact okWorld "data.bin" "/abs/data.bin" [104, 105]
    rfl (by simp [okWorld])

/-- C5: for a path denoting a directory the read fails with the
not-a-file error, but `main` discards that result: the process exits
with status 0 and prints no NotAFile diagnostic (no diagnostic at all),
instead of the required distinguished non-zero failure. -/
theorem C5_directory_no_diagnostic_exit_zero :
    rustMain dirWorld ["prog", "somedir"] =
      ⟨[.noArgsMsg, .rawPath "somedir", .absPathMsg "/abs/dir"],
       [.statQuery "somedir", .contentRead "/abs/dir"], .normal 0⟩ ∧
    dirWorld.readBytes "/abs/dir" = .error .notAFile :=
  ⟨by decide, rfl⟩

/-- C6 counterexample: a concrete successful run (resolution and read
both succeed, exit status 0) whose output is not the claimed two-element
sequence "resolved path rendering then bytes rendering": it is preceded
by the spurious no-arguments message and the raw-path echo. -/
theorem C6_counterexample :
    (rustMain okWorld ["prog", "data.bin"]).outcome = .normal 0 ∧
    ¬ (rustMain okWorld ["prog", "data.bin"]).output =
        [.absPathMsg "/abs/data.bin", .fileData [104, 105]] := by
  decide

/-- C6 (amended): on every successful run the process exits with status
0 and the output is the no-arguments message, the raw-path rendering, the
resolved-path rendering, and the bytes rendering, in that order — so the
resolved path does precede the bytes, but two extra items come first. -/
theorem C6_success_exit_zero_ordered_output (w : World) (p q : String)
    (bs : List Nat) (hc : w.canonicalize p = .ok q)
    (hr : w.readBytes q = .ok bs) :
    (rustMain w ["prog", p]).outcome = .normal 0 ∧
    (rustMain w ["prog", p]).output =
      [.noArgsMsg, .rawPath p, .absPathMsg q, .fileData bs] := by
  constructor <;> simp [rustMain, goblin_runner, usizeNot, hc, hr]

/-- Witness for C6 (amended) at a concrete environment and argument. -/
theorem C6_success_exit_zero_ordered_output_witness :
    (rustMain okWorld ["prog", "data.bin"]).outcome = .normal 0 ∧
    (rustMain okWorld ["prog", "data.bin"]).output =
      [.noArgsMsg, .rawPath "data.bin", .absPathMsg "/abs/data.bin",
       .fileData [104, 105]] :=
  C6_success_exit_zero_ordered_output okWorld "data.bin" "/abs/data.bin"
    [104, 105] rfl (by simp [okWorld])

/-- C7: the guard `!args.len() > 1` is `(usizeNot args.length) > 1`
(unary complement before comparison), which is not equivalent to the
intended "length not greater than 1"; whenever the complemented length
exceeds 1, the no-arguments message is printed first even though user
arguments are supplied (length greater than 1). -/
theorem C7_inverted_guard (w : World) (args : List String)
    (hlen : args.length > 1) (hg : usizeNot args.length > 1) :
    ¬ ((usizeNot args.length > 1) ↔ ¬ (args.length > 1)) ∧
    (rustMain w args).output.head? = some .noArgsMsg := by
  refine ⟨fun hiff => (hiff.mp hg) hlen, ?_⟩
  rcases args with _ | ⟨a, rest⟩
  · simp at hlen
  rcases rest with _ | ⟨file, rest2⟩
  · simp at hlen
  simp only [List.length_cons] at hg
  cases hc : w.canonicalize file <;>
    simp [rustMain, goblin_runner, hc, hg]

/-- Witness for C7 at the standard single-argument invocation. -/
theorem C7_inverted_guard_witness :
    ¬ ((usizeNot (["prog", "x"] : List String).length > 1) ↔
        ¬ ((["prog", "x"] : List String).length > 1)) ∧
    (rustMain okWorld ["prog", "x"]).output.head? = some .noArgsMsg :=
  C7_inverted_guard okWorld ["prog", "x"] (by decide) (by decide)

/-- C8: whenever canonicalization of the supplied path string `p`
succeeds with the canonical absolute path `q` (symlinks resolved,
`.`/`..` segments removed, per the `World` contract), the resolved path
the program reports — the third printed item — is exactly `q`. -/
theorem C8_reports_canonical_path (w : World) (p q : String)
    (hc : w.canonicalize p = .ok q) :
    (rustMain w ["prog", p]).output[2]? = some (.absPathMsg q) := by
  cases hr : w.readBytes q <;>
    simp [rustMain, goblin_runner, usizeNot, hc, hr]

/-- Witness for C8 at a concrete environment and relative path. -/
theorem C8_reports_canonical_path_witness :
    (rustMain okWorld ["prog", "./data.bin"]).output[2]? =
      some (.absPathMsg "/abs/data.bin") :=
  C8_reports_canonical_path okWorld "./data.bin" "/abs/data.bin" rfl

/-- C9: every run performs at most one read of file contents and issues
no filesystem mutation whatsoever; the only other operation is the
resolution query, and the result is a pure function of the environment
and arguments, so no state persists across runs. -/
theorem C9_at_most_one_read_no_writes (w : World) (args : List String) :
    (rustMain w args).trace.countP FSOp.isContentRead ≤ 1 ∧
    ∀ op ∈ (rustMain w args).trace, op.isWrite = false := by
  rcases args with _ | ⟨a, rest⟩
  · simp [rustMain]
  rcases rest with _ | ⟨file, rest2⟩
  · simp [rustMain]
  cases hc : w.canonicalize file with
  | error e => simp [rustMain, hc, FSOp.isContentRead, FSOp.isWrite]
  | ok q =>
    cases hr : w.readBytes q <;>
      simp [rustMain, goblin_runner, hc, hr, FSOp.isContentRead, FSOp.isWrite]

/-- C10 counterexample: a concrete successful run whose output does not
begin with the raw-path rendering — the first item is the spurious
no-arguments message produced by the inverted guard. -/
theorem C10_counterexample :
    (rustMain okWorld ["prog", "data.bin"]).outcome = .normal 0 ∧
    ¬ (rustMain okWorld ["prog", "data.bin"]).output.head? =
        some (.rawPath "data.bin") := by
  decide

/-- C10 (amended): on every successful run the raw, user-supplied path
string is echoed (as the second output item) before the resolved absolute
path (the third item) — an element the spec's output format omits — but
it is not the first item: the no-arguments message precedes it. -/
theorem C10_raw_path_echoed_before_resolved (w : World) (p q : String)
    (bs : List Nat) (hc : w.canonicalize p = .ok q)
    (hr : w.readBytes q = .ok bs) :
    (rustMain w ["prog", p]).output[1]? = some (.rawPath p) ∧
    (rustMain w ["prog", p]).output[2]? = some (.absPathMsg q) ∧
    (rustMain w ["prog", p]).output[0]? = some .noArgsMsg := by
  refine ⟨?_, ?_, ?_⟩ <;> simp [rustMain, goblin_runner, usizeNot, hc, hr]

/-- Witness for C10 (amended) at a concrete environment and argument. -/
theorem C10_raw_path_echoed_before_resolved_witness :
    (rustMain okWorld ["prog", "data.bin"]).output[1]? =
      some (.rawPath "data.bin") ∧
    (rustMain okWorld ["prog", "data.bin"]).output[2]? =
      some (.absPathMsg "/abs/data.bin") ∧
    (rustMain okWorld ["prog", "data.bin"]).output[0]? =
      some OutItem.noArgsMsg :=
  C10_raw_path_echoed_before_resolved okWorld "data.bin" "/abs/data.bin"
    [104, 105] rfl (by simp [okWorld])

end ArvoraNix
